import Mathlib

/-!
Verification of the Task complaint CRUD service (`task-api/main.py`).

The service keeps a single `tasks` table and exposes create / list / get /
update / delete endpoints.  We embed the runtime state as a list of records
plus the database's next auto-increment primary key, and each endpoint as a
pure function threading that state.

A raw JSON field is `Option (Option String)`: `none` means the key is absent
from the payload, `some none` means it is present with an explicit `null`,
and `some (some s)` means it is present with string value `s`.  This mirrors
pydantic's tracking of set fields, which `model_dump(exclude_unset=True)`
relies on in `update_task`.

Records are stored with every field optional: the Python runtime object is
dynamically typed and `setattr` in `update_task` performs no validation, so
a field declared `str` can still hold `None` in memory after an update.
Persistence is another matter: the non-`Optional` model fields map to
NOT NULL columns, so `session.commit()` raises `IntegrityError` (surfaced
as HTTP 500, transaction rolled back) if such a field was nulled.
`create_task` only ever produces fully populated records.
-/

namespace TaskApi

/-- A persisted task row, as the in-memory ORM object.  Fields are `Option`
because `update_task`'s `setattr` loop can place `None` in any of them. -/
structure Task where
  id : Nat
  complain_no : Option String
  complain_remarks : Option String
  complain_status : Option String
  created_by : Option String
deriving Repr, DecidableEq

/-- The database: the rows of the `tasks` table in storage order, plus the
next value of the auto-increment primary key. -/
structure Store where
  tasks : List Task
  next_id : Nat
deriving Repr, DecidableEq

/-- A raw JSON field: absent, present-and-null, or present with a string. -/
abbrev RawField := Option (Option String)

/-- A raw JSON object sent to the create or update endpoint, restricted to
the four task fields (unknown keys are ignored by pydantic). -/
structure RawPayload where
  complain_no : RawField
  complain_remarks : RawField
  complain_status : RawField
  created_by : RawField
deriving Repr, DecidableEq

/-- The error kinds the service can signal: `HTTPException(404, detail)`,
pydantic validation failure (HTTP 422), and an `IntegrityError` raised by
`session.commit()` when a NOT NULL column would be violated — unhandled, so
the framework rolls the transaction back and answers HTTP 500. -/
inductive ApiError where
  | notFound (detail : String)
  | validation
  | integrityError
deriving Repr, DecidableEq

/-- The HTTP status code of an error response. -/
def ApiError.statusCode : ApiError → Nat
  | .notFound _ => 404
  | .validation => 422
  | .integrityError => 500

/-- The detail string of `HTTPException(status_code=404, detail=f"Task with ID \x7btask_id\x7d not found")`. -/
def notFoundMsg (task_id : Nat) : String :=
  "Task with ID " ++ toString task_id ++ " not found"

/-- `class TaskCreate`: `complain_no: str`, `complain_remarks: Optional[str] = None`,
`complain_status: str = "pending"`, `created_by: str`. -/
structure TaskCreate where
  complain_no : String
  complain_remarks : Option String
  complain_status : String
  created_by : String
deriving Repr, DecidableEq

/-- Pydantic validation of a raw payload against `TaskCreate`: the plain
`str` fields must be present and non-null, `Optional[str] = None` collapses
absent and null to `None`, and `complain_status` defaults to `"pending"`
when absent. -/
def TaskCreate.validate (p : RawPayload) : Except ApiError TaskCreate :=
  match p.complain_no with
  | some (some cn) =>
    match p.created_by with
    | some (some cb) =>
      match p.complain_status with
      | none => .ok ⟨cn, p.complain_remarks.join, "pending", cb⟩
      | some (some cs) => .ok ⟨cn, p.complain_remarks.join, cs, cb⟩
      | some none => .error .validation
    | _ => .error .validation
  | _ => .error .validation

/-- `class TaskUpdate`: all four fields `Optional[str] = None`.  The record
keeps the raw set/unset information, which is what `model_dump(exclude_unset=True)`
works from. -/
structure TaskUpdate where
  complain_no : RawField
  complain_remarks : RawField
  complain_status : RawField
  created_by : RawField
deriving Repr, DecidableEq

/-- Pydantic validation of a raw payload against `TaskUpdate`: every field
is `Optional[str]`, so absent, null and string values all validate. -/
def TaskUpdate.validate (p : RawPayload) : Except ApiError TaskUpdate :=
  .ok ⟨p.complain_no, p.complain_remarks, p.complain_status, p.created_by⟩

/-- The update loop of `update_task`:
`for key, value in task_update.model_dump(exclude_unset=True).items(): setattr(task, key, value)`.
A field absent from the payload is not in the dump and is left untouched;
a field present (even as null) is written verbatim. -/
def applyUpdate (t : Task) (u : TaskUpdate) : Task :=
  { t with
    complain_no := match u.complain_no with
      | some v => v
      | none => t.complain_no
    complain_remarks := match u.complain_remarks with
      | some v => v
      | none => t.complain_remarks
    complain_status := match u.complain_status with
      | some v => v
      | none => t.complain_status
    created_by := match u.created_by with
      | some v => v
      | none => t.created_by }

/-- `create_task` given an already validated body: insert a fresh row with
the server-assigned id and return the refreshed row. -/
def createTaskValidated (tc : TaskCreate) (s : Store) : Task × Store :=
  let t : Task :=
    { id := s.next_id
      complain_no := some tc.complain_no
      complain_remarks := tc.complain_remarks
      complain_status := some tc.complain_status
      created_by := some tc.created_by }
  (t, { tasks := s.tasks ++ [t], next_id := s.next_id + 1 })

/-- `POST /tasks`: pydantic validation of the body, then `create_task`. -/
def createTask (p : RawPayload) (s : Store) : Except ApiError (Task × Store) :=
  (TaskCreate.validate p).map (fun tc => createTaskValidated tc s)

/-- The HTTP status of a create response: `status_code=201` on success,
the error's code otherwise. -/
def createStatus (r : Except ApiError (Task × Store)) : Nat :=
  match r with
  | .ok _ => 201
  | .error e => e.statusCode

/-- `GET /tasks/\x7btask_id\x7d`: `session.get(Task, task_id)` then 404 if absent. -/
def getTask (task_id : Nat) (s : Store) : Except ApiError Task :=
  match s.tasks.find? (fun t => t.id == task_id) with
  | none => .error (.notFound (notFoundMsg task_id))
  | some t => .ok t

/-- The NOT NULL constraints of the `tasks` table: `complain_no`,
`complain_status` and `created_by` are declared non-`Optional` on the
`Task` model, so their columns are NOT NULL; only `complain_remarks`
(`Optional[str]`) is nullable.  `session.commit()` raises `IntegrityError`
when the dirty row holds `None` in a NOT NULL column. -/
def violatesNotNull (t : Task) : Bool :=
  t.complain_no.isNone || t.complain_status.isNone || t.created_by.isNone

/-- `PUT /tasks/\x7btask_id\x7d` after body validation: look the row up, apply the
set fields in memory, then commit.  The commit persists the row (replacing
the one with that primary key) unless the updated row violates a NOT NULL
column, in which case `IntegrityError` propagates (HTTP 500) and the
rollback leaves the table unchanged. -/
def updateTask (task_id : Nat) (u : TaskUpdate) (s : Store) : Except ApiError (Task × Store) :=
  match s.tasks.find? (fun t => t.id == task_id) with
  | none => .error (.notFound (notFoundMsg task_id))
  | some t =>
    let t' := applyUpdate t u
    if violatesNotNull t' then .error .integrityError
    else .ok (t', { s with tasks := s.tasks.map (fun x => if x.id == task_id then t' else x) })

/-- `PUT /tasks/\x7btask_id\x7d` including the pydantic validation of the body. -/
def updateTaskEndpoint (task_id : Nat) (p : RawPayload) (s : Store) :
    Except ApiError (Task × Store) :=
  (TaskUpdate.validate p).bind (fun u => updateTask task_id u s)

/-- The JSON body returned by a successful delete:
`\x7b"message": "Task deleted successfully", "id": task_id\x7d`. -/
structure DeleteResponse where
  message : String
  id : Nat
deriving Repr, DecidableEq

/-- `DELETE /tasks/\x7btask_id\x7d`: 404 if the row is absent, otherwise remove the
row with that primary key and return the confirmation body. -/
def deleteTask (task_id : Nat) (s : Store) : Except ApiError (DeleteResponse × Store) :=
  match s.tasks.find? (fun t => t.id == task_id) with
  | none => .error (.notFound (notFoundMsg task_id))
  | some _ =>
    .ok (⟨"Task deleted successfully", task_id⟩,
      { s with tasks := s.tasks.filter (fun t => t.id != task_id) })

/-- Python truthiness of an `Optional[str]` query parameter, as used by
`if status:` and `if created_by:` in `list_tasks`: `None` and the empty
string are falsy. -/
def truthy : Option String → Bool
  | none => false
  | some s => s != ""

/-- The first `.where` of `list_tasks`, guarded by `if status:`. -/
def filterByStatus (status : Option String) (l : List Task) : List Task :=
  if truthy status then l.filter (fun t => t.complain_status == status) else l

/-- The second `.where` of `list_tasks`, guarded by `if created_by:`. -/
def filterByCreatedBy (created_by : Option String) (l : List Task) : List Task :=
  if truthy created_by then l.filter (fun t => t.created_by == created_by) else l

/-- `GET /tasks`: optional equality filters, then `.offset(skip).limit(limit)`.
`skip` and `limit` are plain `int` query parameters with defaults 0 and 100
and no range constraint.  A negative offset behaves like 0 (SQLite's
treatment of negative `OFFSET`), hence `Int.toNat`. -/
def listTasks (status created_by : Option String) (skip limit : Int) (s : Store) : List Task :=
  ((filterByCreatedBy created_by (filterByStatus status s.tasks)).drop skip.toNat).take limit.toNat


/-! ### Shared sample data and helper lemmas -/

/-- A concrete persisted task, as in the spec example
(`complain_no:"TEST001"`, `created_by:"u"`, default status). -/
def sampleTask : Task := ⟨1, some "TEST001", none, some "pending", some "u"⟩

/-- A store holding just `sampleTask`, next primary key 2. -/
def sampleStore : Store := ⟨[sampleTask], 2⟩

/-- Inverting a successful `updateTask`: the returned row is the found row
with the set fields applied. -/
lemma updateTask_ok (s : Store) (task_id : Nat) (u : TaskUpdate) (t t' : Task) (s' : Store)
    (hfind : s.tasks.find? (fun x => x.id == task_id) = some t)
    (hupd : updateTask task_id u s = .ok (t', s')) :
    t' = applyUpdate t u := by
  unfold updateTask at hupd
  rw [hfind] at hupd
  dsimp only at hupd
  split at hupd
  · exact absurd hupd (by simp)
  · simp at hupd
    exact hupd.1.symm

/-- Membership through an `if`-guarded filter stage. -/
lemma mem_of_mem_filter_if (p : Task → Bool) (c : Bool) (l : List Task) (t : Task)
    (h : t ∈ (if c then l.filter p else l)) : t ∈ l ∧ (c = true → p t = true) := by
  cases c with
  | false => simpa using h
  | true =>
    simp only [if_pos, List.mem_filter] at h
    exact ⟨h.1, fun _ => h.2⟩

/-! ### Claims -/

/-- C1 counterexample: an update payload setting the NOT NULL field
`complain_no` explicitly to null is NOT applied: `session.commit()` raises
`IntegrityError`, the request fails with HTTP 500 and nothing is cleared,
refuting the claim that a present-and-null field is always applied. -/
theorem C1_counterexample :
    updateTask 1 ⟨some none, none, none, none⟩ sampleStore = .error .integrityError ∧
    ApiError.integrityError.statusCode = 500 :=
  ⟨rfl, rfl⟩

/-- C1 (amended): in a partial update, present-and-null and not-provided
are distinguished.  A field absent from the payload is left untouched.  A
field present with an explicit null is applied (set to null in memory) but
survives the commit only for the nullable field `complain_remarks`, which
is thereby cleared; an explicit null on `complain_no`, `complain_status`
or `created_by` makes the commit raise `IntegrityError` (HTTP 500), and
the rollback leaves the record unchanged.  On an intact record, an update
touching none of the NOT NULL fields — e.g. `\x7b"complain_remarks": null\x7d` —
commits successfully. -/
theorem C1_null_clears_only_nullable_field (s : Store) (task_id : Nat) (u : TaskUpdate)
    (t t' : Task) (s' : Store)
    (hfind : s.tasks.find? (fun x => x.id == task_id) = some t) :
    (updateTask task_id u s = .ok (t', s') →
      (u.complain_remarks = some none → t'.complain_remarks = none) ∧
      (u.complain_remarks = none → t'.complain_remarks = t.complain_remarks) ∧
      (u.complain_no = none → t'.complain_no = t.complain_no) ∧
      (u.complain_status = none → t'.complain_status = t.complain_status) ∧
      (u.created_by = none → t'.created_by = t.created_by)) ∧
    (u.complain_no = some none → updateTask task_id u s = .error .integrityError) ∧
    (u.complain_status = some none → updateTask task_id u s = .error .integrityError) ∧
    (u.created_by = some none → updateTask task_id u s = .error .integrityError) ∧
    ApiError.integrityError.statusCode = 500 ∧
    (t.complain_no ≠ none ∧ t.complain_status ≠ none ∧ t.created_by ≠ none ∧
        u.complain_no = none ∧ u.complain_status = none ∧ u.created_by = none →
      updateTask task_id u s =
        .ok (applyUpdate t u,
          ⟨s.tasks.map (fun x => if x.id == task_id then applyUpdate t u else x),
            s.next_id⟩)) := by
  refine ⟨?_, ?_, ?_, ?_, rfl, ?_⟩
  · intro hupd
    have ht' : t' = applyUpdate t u := updateTask_ok s task_id u t t' s' hfind hupd
    subst ht'
    refine ⟨?_, ?_, ?_, ?_, ?_⟩ <;> intro h <;> simp [applyUpdate, h]
  · intro h
    unfold updateTask
    rw [hfind]
    have hviol : violatesNotNull (applyUpdate t u) = true := by
      simp [violatesNotNull, applyUpdate, h]
    simp [hviol]
  · intro h
    unfold updateTask
    rw [hfind]
    have hviol : violatesNotNull (applyUpdate t u) = true := by
      simp [violatesNotNull, applyUpdate, h]
    simp [hviol]
  · intro h
    unfold updateTask
    rw [hfind]
    have hviol : violatesNotNull (applyUpdate t u) = true := by
      simp [violatesNotNull, applyUpdate, h]
    simp [hviol]
  · rintro ⟨h1, h2, h3, h4, h5, h6⟩
    unfold updateTask
    rw [hfind]
    have hviol : violatesNotNull (applyUpdate t u) = false := by
      simp [violatesNotNull, applyUpdate, h4, h5, h6, Option.isNone_iff_eq_none]
      exact ⟨⟨Option.isSome_iff_ne_none.mpr h1, Option.isSome_iff_ne_none.mpr h2⟩,
        Option.isSome_iff_ne_none.mpr h3⟩
    simp [hviol]

/-- C1 witness: on `sampleStore`, nulling `complain_no` yields the
`IntegrityError` failure, while `\x7b"complain_remarks": null\x7d` commits. -/
theorem C1_witness :
    sampleStore.tasks.find? (fun x => x.id == 1) = some sampleTask ∧
    updateTask 1 ⟨some none, none, none, none⟩ sampleStore = .error .integrityError ∧
    updateTask 1 ⟨none, some none, none, none⟩ sampleStore =
      .ok (applyUpdate sampleTask ⟨none, some none, none, none⟩,
        ⟨sampleStore.tasks.map (fun x => if x.id == 1 then
          applyUpdate sampleTask ⟨none, some none, none, none⟩ else x),
          sampleStore.next_id⟩) :=
  ⟨rfl,
    (C1_null_clears_only_nullable_field sampleStore 1 ⟨some none, none, none, none⟩
      sampleTask sampleTask sampleStore rfl).2.1 rfl,
    (C1_null_clears_only_nullable_field sampleStore 1 ⟨none, some none, none, none⟩
      sampleTask sampleTask sampleStore rfl).2.2.2.2.2
      ⟨by decide, by decide, by decide, rfl, rfl, rfl⟩⟩

/-- C3: a partial update that sets exactly one field leaves the id and every
other field of the record identical to its pre-update value. -/
theorem C3_single_field_update_frame (s : Store) (task_id : Nat) (u : TaskUpdate)
    (t t' : Task) (s' : Store)
    (hfind : s.tasks.find? (fun x => x.id == task_id) = some t)
    (hupd : updateTask task_id u s = .ok (t', s')) :
    t'.id = t.id ∧
    (u.complain_remarks = none ∧ u.complain_status = none ∧ u.created_by = none →
      t'.complain_remarks = t.complain_remarks ∧ t'.complain_status = t.complain_status ∧
        t'.created_by = t.created_by) ∧
    (u.complain_no = none ∧ u.complain_status = none ∧ u.created_by = none →
      t'.complain_no = t.complain_no ∧ t'.complain_status = t.complain_status ∧
        t'.created_by = t.created_by) ∧
    (u.complain_no = none ∧ u.complain_remarks = none ∧ u.created_by = none →
      t'.complain_no = t.complain_no ∧ t'.complain_remarks = t.complain_remarks ∧
        t'.created_by = t.created_by) ∧
    (u.complain_no = none ∧ u.complain_remarks = none ∧ u.complain_status = none →
      t'.complain_no = t.complain_no ∧ t'.complain_remarks = t.complain_remarks ∧
        t'.complain_status = t.complain_status) := by
  have ht' : t' = applyUpdate t u := updateTask_ok s task_id u t t' s' hfind hupd
  subst ht'
  refine ⟨rfl, ?_, ?_, ?_, ?_⟩ <;> rintro ⟨h1, h2, h3⟩ <;> simp [applyUpdate, h1, h2, h3]

/-- C3 witness: updating only `complain_status` on `sampleStore`'s task
leaves `complain_no`, `complain_remarks` and `created_by` unchanged. -/
theorem C3_witness :
    sampleStore.tasks.find? (fun x => x.id == 1) = some sampleTask ∧
    updateTask 1 ⟨none, none, some (some "resolved"), none⟩ sampleStore =
      .ok (⟨1, some "TEST001", none, some "resolved", some "u"⟩,
        ⟨[⟨1, some "TEST001", none, some "resolved", some "u"⟩], 2⟩) ∧
    ((⟨none, none, some (some "resolved"), none⟩ : TaskUpdate).complain_no = none ∧
     (⟨none, none, some (some "resolved"), none⟩ : TaskUpdate).complain_remarks = none ∧
     (⟨none, none, some (some "resolved"), none⟩ : TaskUpdate).created_by = none →
      (⟨1, some "TEST001", none, some "resolved", some "u"⟩ : Task).complain_no =
          sampleTask.complain_no ∧
        (⟨1, some "TEST001", none, some "resolved", some "u"⟩ : Task).complain_remarks =
          sampleTask.complain_remarks ∧
        (⟨1, some "TEST001", none, some "resolved", some "u"⟩ : Task).created_by =
          sampleTask.created_by) :=
  ⟨rfl, rfl,
    (C3_single_field_update_frame sampleStore 1 ⟨none, none, some (some "resolved"), none⟩
      sampleTask ⟨1, some "TEST001", none, some "resolved", some "u"⟩
      ⟨[⟨1, some "TEST001", none, some "resolved", some "u"⟩], 2⟩ rfl rfl).2.2.2.1⟩

/-- C8: the update validation layer (`TaskUpdate`, all fields
`Optional[str] = None`) accepts an explicit null for every field of a
Task, including the create-required ones; the endpoint never rejects such
a payload as a validation error, and the `setattr` loop applies the null,
setting the field to `None` on the in-memory record.  (Whether the commit
then succeeds is a separate matter, settled under C1.) -/
theorem C8_update_accepts_explicit_null_for_every_field (p : RawPayload) (s : Store)
    (task_id : Nat) (t : Task)
    (hfind : s.tasks.find? (fun x => x.id == task_id) = some t) :
    TaskUpdate.validate p =
      .ok ⟨p.complain_no, p.complain_remarks, p.complain_status, p.created_by⟩ ∧
    updateTaskEndpoint task_id p s ≠ .error .validation ∧
    (p.complain_no = some none →
      (applyUpdate t
        ⟨p.complain_no, p.complain_remarks, p.complain_status, p.created_by⟩).complain_no =
        none) ∧
    (p.complain_status = some none →
      (applyUpdate t
        ⟨p.complain_no, p.complain_remarks, p.complain_status, p.created_by⟩).complain_status =
        none) ∧
    (p.created_by = some none →
      (applyUpdate t
        ⟨p.complain_no, p.complain_remarks, p.complain_status, p.created_by⟩).created_by =
        none) ∧
    (p.complain_remarks = some none →
      (applyUpdate t
        ⟨p.complain_no, p.complain_remarks, p.complain_status, p.created_by⟩).complain_remarks =
        none) := by
  refine ⟨rfl, ?_, ?_, ?_, ?_, ?_⟩
  · show updateTask task_id ⟨p.complain_no, p.complain_remarks, p.complain_status, p.created_by⟩ s
      ≠ .error .validation
    unfold updateTask
    rw [hfind]
    dsimp only
    split <;> simp
  all_goals intro h
  all_goals simp [applyUpdate, h]

/-- C8 witness: a payload setting `complain_no` explicitly to null passes
validation, is not rejected as a validation error, and the in-memory
record has `complain_no = none` after the `setattr` loop. -/
theorem C8_witness :
    sampleStore.tasks.find? (fun x => x.id == 1) = some sampleTask ∧
    updateTaskEndpoint 1 ⟨some none, none, none, none⟩ sampleStore ≠ .error .validation ∧
    ((⟨some none, none, none, none⟩ : RawPayload).complain_no = some none →
      (applyUpdate sampleTask
        ⟨(⟨some none, none, none, none⟩ : RawPayload).complain_no,
         (⟨some none, none, none, none⟩ : RawPayload).complain_remarks,
         (⟨some none, none, none, none⟩ : RawPayload).complain_status,
         (⟨some none, none, none, none⟩ : RawPayload).created_by⟩).complain_no = none) :=
  ⟨rfl,
    (C8_update_accepts_explicit_null_for_every_field ⟨some none, none, none, none⟩
      sampleStore 1 sampleTask rfl).2.1,
    (C8_update_accepts_explicit_null_for_every_field ⟨some none, none, none, none⟩
      sampleStore 1 sampleTask rfl).2.2.1⟩

/-- C4: deleting an existing task removes it permanently (a subsequent
fetch and a second delete of the same id both signal 404 not-found), and
deleting an id with no corresponding record signals 404 with a message. -/
theorem C4_delete_removes_then_not_found (s : Store) (task_id missing_id : Nat) (t : Task)
    (hget : getTask task_id s = .ok t)
    (hmiss : s.tasks.find? (fun x => x.id == missing_id) = none) :
    deleteTask missing_id s = .error (.notFound (notFoundMsg missing_id)) ∧
    deleteTask task_id s =
      .ok (⟨"Task deleted successfully", task_id⟩,
        ⟨s.tasks.filter (fun x => x.id != task_id), s.next_id⟩) ∧
    getTask task_id ⟨s.tasks.filter (fun x => x.id != task_id), s.next_id⟩ =
      .error (.notFound (notFoundMsg task_id)) ∧
    deleteTask task_id ⟨s.tasks.filter (fun x => x.id != task_id), s.next_id⟩ =
      .error (.notFound (notFoundMsg task_id)) := by
  have hfind : s.tasks.find? (fun x => x.id == task_id) = some t := by
    unfold getTask at hget
    cases h : s.tasks.find? (fun x => x.id == task_id) with
    | none => rw [h] at hget; exact absurd hget (by simp)
    | some t2 => rw [h] at hget; simp at hget; rw [hget]
  have hnone : (s.tasks.filter (fun x => x.id != task_id)).find?
      (fun x => x.id == task_id) = none := by
    rw [List.find?_eq_none]
    intro x hx
    have hne := (List.mem_filter.mp hx).2
    simp only [bne_iff_ne, ne_eq] at hne
    simpa using hne
  refine ⟨?_, ?_, ?_, ?_⟩
  · unfold deleteTask; rw [hmiss]
  · unfold deleteTask; rw [hfind]
  · unfold getTask; rw [hnone]
  · unfold deleteTask; rw [hnone]

/-- C4 witness: deleting id 1 from `sampleStore`, then fetching or deleting
it again, yields 404; deleting the absent id 99999 yields 404. -/
theorem C4_witness :
    getTask 1 sampleStore = .ok sampleTask ∧
    sampleStore.tasks.find? (fun x => x.id == 99999) = none ∧
    deleteTask 99999 sampleStore = .error (.notFound (notFoundMsg 99999)) ∧
    deleteTask 1 sampleStore =
      .ok (⟨"Task deleted successfully", 1⟩,
        ⟨sampleStore.tasks.filter (fun x => x.id != 1), sampleStore.next_id⟩) ∧
    getTask 1 ⟨sampleStore.tasks.filter (fun x => x.id != 1), sampleStore.next_id⟩ =
      .error (.notFound (notFoundMsg 1)) ∧
    deleteTask 1 ⟨sampleStore.tasks.filter (fun x => x.id != 1), sampleStore.next_id⟩ =
      .error (.notFound (notFoundMsg 1)) := by
  have h := C4_delete_removes_then_not_found sampleStore 1 99999 sampleTask rfl rfl
  exact ⟨rfl, rfl, h.1, h.2.1, h.2.2.1, h.2.2.2⟩

/-- The status default of `TaskCreate`: a payload without `complain_status`
validates to the default `"pending"`. -/
lemma validate_status_default (p : RawPayload) (tc : TaskCreate)
    (hval : TaskCreate.validate p = .ok tc) (h : p.complain_status = none) :
    tc.complain_status = "pending" := by
  unfold TaskCreate.validate at hval
  rw [h] at hval
  rcases hcn : p.complain_no with _ | ⟨_ | cn⟩ <;> rw [hcn] at hval <;>
    rcases hcb : p.created_by with _ | ⟨_ | cb⟩ <;> rw [hcb] at hval <;>
    simp at hval
  rw [← hval]

/-- C5: creating from a valid payload persists a new record carrying the
server-assigned id `next_id`, which differs from every prior record id
(given the auto-increment invariant), applies the `"pending"` default when
`complain_status` is absent, and returns the full persisted record. -/
theorem C5_create_assigns_fresh_id_and_defaults (s : Store) (p : RawPayload) (tc : TaskCreate)
    (hval : TaskCreate.validate p = .ok tc)
    (hwf : s.tasks.all (fun t => decide (t.id < s.next_id)) = true) :
    createTask p s =
      .ok (⟨s.next_id, some tc.complain_no, tc.complain_remarks, some tc.complain_status,
          some tc.created_by⟩,
        ⟨s.tasks ++ [⟨s.next_id, some tc.complain_no, tc.complain_remarks,
          some tc.complain_status, some tc.created_by⟩], s.next_id + 1⟩) ∧
    s.tasks.all (fun t => t.id != s.next_id) = true ∧
    (p.complain_status = none → tc.complain_status = "pending") := by
  refine ⟨?_, ?_, fun h => validate_status_default p tc hval h⟩
  · unfold createTask
    rw [hval]
    rfl
  · rw [List.all_eq_true] at hwf ⊢
    intro x hx
    have hlt := hwf x hx
    simp only [decide_eq_true_eq] at hlt
    simp only [bne_iff_ne, ne_eq]
    exact Nat.ne_of_lt hlt

/-- C5 witness: creating `\x7bcomplain_no:"NEW01", created_by:"alice"\x7d` in
`sampleStore` persists id 2, distinct from the existing id 1, with status
defaulted to `"pending"`. -/
theorem C5_witness :
    TaskCreate.validate ⟨some (some "NEW01"), none, none, some (some "alice")⟩ =
      .ok ⟨"NEW01", none, "pending", "alice"⟩ ∧
    sampleStore.tasks.all (fun t => decide (t.id < sampleStore.next_id)) = true ∧
    createTask ⟨some (some "NEW01"), none, none, some (some "alice")⟩ sampleStore =
      .ok (⟨sampleStore.next_id, some "NEW01", none, some "pending", some "alice"⟩,
        ⟨sampleStore.tasks ++ [⟨sampleStore.next_id, some "NEW01", none, some "pending",
          some "alice"⟩], sampleStore.next_id + 1⟩) ∧
    sampleStore.tasks.all (fun t => t.id != sampleStore.next_id) = true := by
  have h := C5_create_assigns_fresh_id_and_defaults sampleStore
    ⟨some (some "NEW01"), none, none, some (some "alice")⟩
    ⟨"NEW01", none, "pending", "alice"⟩ rfl rfl
  exact ⟨rfl, rfl, h.1, h.2.1⟩

/-- C7: a create payload missing `complain_no` or `created_by` is rejected
by pydantic validation with HTTP 422; no task/store pair is produced, so
nothing is persisted. -/
theorem C7_create_missing_required_rejected (s : Store) (p : RawPayload)
    (h : p.complain_no = none ∨ p.created_by = none) :
    createTask p s = .error .validation ∧ ApiError.validation.statusCode = 422 := by
  refine ⟨?_, rfl⟩
  unfold createTask TaskCreate.validate
  rcases h with h | h
  · rw [h]; rfl
  · rw [h]
    rcases hcn : p.complain_no with _ | ⟨_ | cn⟩ <;> rfl

/-- C7 witness: a payload with only `created_by` (no `complain_no`) is
rejected with a 422 validation error. -/
theorem C7_witness :
    ((⟨none, none, none, some (some "alice")⟩ : RawPayload).complain_no = none ∨
      (⟨none, none, none, some (some "alice")⟩ : RawPayload).created_by = none) ∧
    createTask ⟨none, none, none, some (some "alice")⟩ sampleStore = .error .validation ∧
    ApiError.validation.statusCode = 422 :=
  ⟨Or.inl rfl,
    C7_create_missing_required_rejected sampleStore ⟨none, none, none, some (some "alice")⟩
      (Or.inl rfl)⟩


/-- C9: required-ness of the string fields is presence only, not
non-emptiness: a payload whose `complain_no` and `created_by` are present
but empty strings is accepted (201) and the empty strings are stored
verbatim (provided `complain_status`, if present, is not an explicit null,
which would fail validation of the non-optional `str` field). -/
theorem C9_empty_strings_accepted (s : Store) (p : RawPayload)
    (hno : p.complain_no = some (some ""))
    (hcb : p.created_by = some (some ""))
    (hcs : p.complain_status ≠ some none) :
    createStatus (createTask p s) = 201 ∧
    createTask p s =
      .ok (⟨s.next_id, some "", p.complain_remarks.join,
          some (p.complain_status.join.getD "pending"), some ""⟩,
        ⟨s.tasks ++ [⟨s.next_id, some "", p.complain_remarks.join,
          some (p.complain_status.join.getD "pending"), some ""⟩], s.next_id + 1⟩) := by
  have h2 : createTask p s =
      .ok (⟨s.next_id, some "", p.complain_remarks.join,
          some (p.complain_status.join.getD "pending"), some ""⟩,
        ⟨s.tasks ++ [⟨s.next_id, some "", p.complain_remarks.join,
          some (p.complain_status.join.getD "pending"), some ""⟩], s.next_id + 1⟩) := by
    unfold createTask TaskCreate.validate
    rw [hno, hcb]
    rcases hst : p.complain_status with _ | ⟨_ | v⟩
    · rfl
    · exact absurd hst hcs
    · rfl
  exact ⟨by rw [h2]; rfl, h2⟩

/-- C9 witness: creating with `complain_no = ""` and `created_by = ""`
succeeds with 201 and stores the empty strings. -/
theorem C9_witness :
    ((⟨some (some ""), none, none, some (some "")⟩ : RawPayload).complain_no =
      some (some "")) ∧
    ((⟨some (some ""), none, none, some (some "")⟩ : RawPayload).created_by =
      some (some "")) ∧
    ((⟨some (some ""), none, none, some (some "")⟩ : RawPayload).complain_status ≠
      some none) ∧
    createStatus (createTask ⟨some (some ""), none, none, some (some "")⟩ sampleStore) = 201 ∧
    createTask ⟨some (some ""), none, none, some (some "")⟩ sampleStore =
      .ok (⟨sampleStore.next_id, some "",
          (⟨some (some ""), none, none, some (some "")⟩ : RawPayload).complain_remarks.join,
          some ((⟨some (some ""), none, none,
            some (some "")⟩ : RawPayload).complain_status.join.getD "pending"), some ""⟩,
        ⟨sampleStore.tasks ++ [⟨sampleStore.next_id, some "",
          (⟨some (some ""), none, none, some (some "")⟩ : RawPayload).complain_remarks.join,
          some ((⟨some (some ""), none, none,
            some (some "")⟩ : RawPayload).complain_status.join.getD "pending"), some ""⟩],
          sampleStore.next_id + 1⟩) := by
  have h := C9_empty_strings_accepted sampleStore ⟨some (some ""), none, none, some (some "")⟩
    rfl rfl (by decide)
  exact ⟨rfl, rfl, by decide, h.1, h.2⟩

/-- C10: the `"pending"` default applies only when `complain_status` is
absent: a payload supplying an explicit status stores the supplied value
verbatim, never the default. -/
theorem C10_explicit_status_stored_verbatim (s : Store) (p : RawPayload) (v cn cb : String)
    (hst : p.complain_status = some (some v))
    (hno : p.complain_no = some (some cn))
    (hcb : p.created_by = some (some cb)) :
    createTask p s =
      .ok (⟨s.next_id, some cn, p.complain_remarks.join, some v, some cb⟩,
        ⟨s.tasks ++ [⟨s.next_id, some cn, p.complain_remarks.join, some v, some cb⟩],
          s.next_id + 1⟩) ∧
    (v ≠ "pending" →
      (⟨s.next_id, some cn, p.complain_remarks.join, some v,
        some cb⟩ : Task).complain_status ≠ some "pending") := by
  constructor
  · unfold createTask TaskCreate.validate
    rw [hno, hcb, hst]
    rfl
  · intro hv
    simpa using hv

/-- C10 witness: supplying `complain_status = "resolved"` stores
`"resolved"`, not the `"pending"` default. -/
theorem C10_witness :
    ((⟨some (some "T1"), none, some (some "resolved"),
      some (some "bob")⟩ : RawPayload).complain_status = some (some "resolved")) ∧
    createTask ⟨some (some "T1"), none, some (some "resolved"), some (some "bob")⟩
        sampleStore =
      .ok (⟨sampleStore.next_id, some "T1",
          (⟨some (some "T1"), none, some (some "resolved"),
            some (some "bob")⟩ : RawPayload).complain_remarks.join, some "resolved",
          some "bob"⟩,
        ⟨sampleStore.tasks ++ [⟨sampleStore.next_id, some "T1",
          (⟨some (some "T1"), none, some (some "resolved"),
            some (some "bob")⟩ : RawPayload).complain_remarks.join, some "resolved",
          some "bob"⟩], sampleStore.next_id + 1⟩) ∧
    ("resolved" ≠ "pending" →
      (⟨sampleStore.next_id, some "T1",
        (⟨some (some "T1"), none, some (some "resolved"),
          some (some "bob")⟩ : RawPayload).complain_remarks.join, some "resolved",
        some "bob"⟩ : Task).complain_status ≠ some "pending") := by
  have h := C10_explicit_status_stored_verbatim sampleStore
    ⟨some (some "T1"), none, some (some "resolved"), some (some "bob")⟩
    "resolved" "T1" "bob" rfl rfl rfl
  exact ⟨rfl, h.1, h.2⟩

/-- C2 counterexample: `list_tasks` guards its filters with Python
truthiness (`if status:`), so an empty-string status filter is ignored
rather than matched: filtering `sampleStore` by `status=""` returns its
task, whose status is `"pending"`, not `""`. -/
theorem C2_counterexample :
    listTasks (some "") none 0 100 sampleStore = [sampleTask] ∧
    sampleTask.complain_status ≠ some "" :=
  ⟨rfl, by simp [sampleTask]⟩

/-- C2 (amended): for every provided NON-EMPTY filter value, every record
in the returned list has the corresponding field equal to that value, and
the two filters combine with logical AND; an empty-string filter is falsy
in Python and is treated as if the filter were absent. -/
theorem C2_nonempty_filters_sound (s : Store) (st cb : Option String)
    (skip limit : Int) (t : Task) (v w : String)
    (hmem : t ∈ listTasks st cb skip limit s) :
    (st = some v → v ≠ "" → t.complain_status = some v) ∧
    (cb = some w → w ≠ "" → t.created_by = some w) := by
  unfold listTasks at hmem
  have h1 : t ∈ filterByCreatedBy cb (filterByStatus st s.tasks) :=
    List.mem_of_mem_drop (List.mem_of_mem_take hmem)
  unfold filterByCreatedBy at h1
  have h2 := mem_of_mem_filter_if _ _ _ _ h1
  unfold filterByStatus at h2
  have h3 := mem_of_mem_filter_if _ _ _ _ h2.1
  constructor
  · intro hst hv
    subst hst
    have htr : truthy (some v) = true := by simp [truthy, hv]
    have := h3.2 htr
    simpa using this
  · intro hcb hw
    subst hcb
    have htr : truthy (some w) = true := by simp [truthy, hw]
    have := h2.2 htr
    simpa using this

/-- C2 witness: `sampleTask` is returned by `?status=pending&created_by=u`
and indeed carries that status and creator. -/
theorem C2_witness :
    sampleTask ∈ listTasks (some "pending") (some "u") 0 100 sampleStore ∧
    ((some "pending" = some ("pending" : String) → "pending" ≠ "" →
        sampleTask.complain_status = some "pending") ∧
      (some "u" = some ("u" : String) → "u" ≠ "" → sampleTask.created_by = some "u")) :=
  ⟨by decide,
    C2_nonempty_filters_sound sampleStore (some "pending") (some "u") 0 100 sampleTask
      "pending" "u" (by decide)⟩

/-- C6 counterexample: `skip` and `limit` are plain ints with no range
constraint: a limit of 2000 is served and returns 1001 records (more than
the claimed 1000 bound), and a negative offset is served normally instead
of being rejected. -/
theorem C6_counterexample :
    1000 < (listTasks none none 0 2000 ⟨List.replicate 1001 sampleTask, 2⟩).length ∧
    listTasks none none (-1) 100 sampleStore = [sampleTask] := by
  constructor
  · have h : (listTasks none none 0 2000 ⟨List.replicate 1001 sampleTask, 2⟩).length =
        min (Int.toNat 2000) (1001 - Int.toNat 0) := by
      show ((((List.replicate 1001 sampleTask).drop (Int.toNat 0)).take
        (Int.toNat 2000)).length) = _
      rw [List.length_take, List.length_drop, List.length_replicate]
    rw [h]
    omega
  · rfl

/-- C6 (amended): the list endpoint performs no validation of `skip` and
`limit` (they are plain `int` query parameters with defaults 0 and 100);
any values are served.  For a non-negative `limit` the returned list has
at most `limit` entries, and it never has more entries than the store. -/
theorem C6_no_validation_but_limit_bound (st cb : Option String)
    (skip limit : Int) (s : Store) (hl : 0 ≤ limit) :
    ((listTasks st cb skip limit s).length : Int) ≤ limit ∧
    (listTasks st cb skip limit s).length ≤ s.tasks.length := by
  have h1 : (listTasks st cb skip limit s).length ≤ limit.toNat :=
    List.length_take_le _ _
  constructor
  · omega
  · unfold listTasks
    have hst : (filterByStatus st s.tasks).length ≤ s.tasks.length := by
      unfold filterByStatus
      split
      · exact List.length_filter_le _ _
      · exact le_rfl
    have hcb : (filterByCreatedBy cb (filterByStatus st s.tasks)).length ≤
        (filterByStatus st s.tasks).length := by
      unfold filterByCreatedBy
      split
      · exact List.length_filter_le _ _
      · exact le_rfl
    calc (((filterByCreatedBy cb (filterByStatus st s.tasks)).drop skip.toNat).take
            limit.toNat).length
        ≤ ((filterByCreatedBy cb (filterByStatus st s.tasks)).drop skip.toNat).length := by
          rw [List.length_take]; exact min_le_right _ _
      _ ≤ (filterByCreatedBy cb (filterByStatus st s.tasks)).length := by
          rw [List.length_drop]; exact Nat.sub_le _ _
      _ ≤ s.tasks.length := le_trans hcb hst

/-- C6 witness: with `limit = 100` on `sampleStore` the returned list has
at most 100 entries and no more than the store's one row. -/
theorem C6_witness :
    (0 : Int) ≤ 100 ∧
    ((listTasks none none 0 100 sampleStore).length : Int) ≤ 100 ∧
    (listTasks none none 0 100 sampleStore).length ≤ sampleStore.tasks.length := by
  have h := C6_no_validation_but_limit_bound none none 0 100 sampleStore (by decide)
  exact ⟨by decide, h.1, h.2⟩

end TaskApi
